import Mathlib

/-!
Verification of the packaging manifest of `vgpu_unlock`.

The repository's only source file is `setup.py`, a declarative packaging
manifest: a single call to setuptools' `setup` with eight keyword
arguments.  We embed that call shallowly: each keyword argument becomes an
entry of an association list, in source order.  The `packages` argument is
not a literal — it is the result of `find_packages()`, evaluated when the
manifest runs — so the embedding is parameterised by that result.
-/

/-- A value passed as a keyword argument to the `setup` call in
`setup.py`: every argument there is either a string literal or a sequence
of strings. -/
inductive SetupValue where
  | str (s : String)
  | strList (l : List String)
  deriving DecidableEq

/-- Shallow embedding of the single `setup(...)` call of `setup.py`: its
keyword arguments, in source order, as an association list.  The value of
`packages` is `find_packages()`; the list that discovery call returns is
the parameter `discovered`. -/
def setupKwargs (discovered : List String) : List (String × SetupValue) :=
  [("name", SetupValue.str "vgpu_unlock"),
   ("version", SetupValue.str "1.0.0"),
   ("description", SetupValue.str "vGPU unlock script for consumer GPUs"),
   ("author", SetupValue.str "D"),
   ("packages", SetupValue.strList discovered),
   ("scripts", SetupValue.strList ["scripts/vgpu-name.sh"]),
   ("install_requires", SetupValue.strList ["frida"]),
   ("classifiers", SetupValue.strList
     ["License :: OSI Approved :: MIT License",
      "Programming Language :: Python :: 3",
      "Programming Language :: Python :: 3.9",
      "Programming Language :: Python :: 3.10",
      "Programming Language :: Python :: 3.11"])]

/-- Look a keyword up in an argument list: the value of the first entry
whose key matches, if any. -/
def kwargLookup (kwargs : List (String × SetupValue)) (key : String) :
    Option SetupValue :=
  (kwargs.find? (fun p => p.1 == key)).map Prod.snd

/-- The classifier literals of `setup.py`, lines 11-17. -/
def manifestClassifiers : List String :=
  ["License :: OSI Approved :: MIT License",
   "Programming Language :: Python :: 3",
   "Programming Language :: Python :: 3.9",
   "Programming Language :: Python :: 3.10",
   "Programming Language :: Python :: 3.11"]

/-- Split a character list at every dot, the way splitting a version
string on `"."` does. -/
def splitOnDot : List Char → List (List Char)
  | [] => [[]]
  | c :: cs =>
    let rest := splitOnDot cs
    if c = '.' then [] :: rest
    else
      match rest with
      | [] => [[c]]
      | p :: ps => (c :: p) :: ps

/-- A version string of the form `major.minor.patch`: exactly three
components separated by dots, each a non-empty run of decimal digits. -/
def isSemverFormat (v : String) : Bool :=
  let parts := splitOnDot v.data
  parts.length == 3 && parts.all (fun p => !p.isEmpty && p.all (fun c => c.isDigit))

/-- A trove license tag: a classifier under the `License ::` namespace. -/
def isLicenseClassifier (c : String) : Bool :=
  "License ::".data.isPrefixOf c.data

/-- A trove Python language-version tag: a classifier under the
`Programming Language :: Python ::` namespace. -/
def isPythonVersionClassifier (c : String) : Bool :=
  "Programming Language :: Python ::".data.isPrefixOf c.data

/-- The characters that begin the non-name part of a dependency
specifier: version-comparison operators, extras brackets, URL marker,
environment-marker separator, and whitespace.  A specifier none of whose
characters is one of these is a bare distribution name. -/
def specifierOperatorChars : List Char :=
  ['<', '>', '=', '!', '~', ';', '@', '[', ']', '(', ')', ',', ' ']

/-- Whether a dependency specifier carries any version constraint,
extras, or marker: true when some character of it is an operator
character. -/
def hasVersionConstraint (spec : String) : Bool :=
  spec.data.any (fun c => specifierOperatorChars.contains c)

/-- The part of a dependency specifier after its distribution name: all
characters from the first operator character on.  Empty for a bare
name. -/
def specifierConstraintPart (spec : String) : List Char :=
  spec.data.dropWhile (fun c => !(specifierOperatorChars.contains c))

/-- Whether a released version satisfies a dependency specifier, given
any semantics `constraintMatches` for non-empty constraint parts: a
specifier with an empty constraint part is satisfied by every version. -/
def specifierSatisfiedBy (constraintMatches : List Char → String → Bool)
    (spec version : String) : Bool :=
  let c := specifierConstraintPart spec
  if c.isEmpty then true else constraintMatches c version

/-- Modelled from the spec: the repository's on-disk project tree at
package time.  The tree itself is not among the supplied source files
(only the manifest is), and the spec states "The declared script path
exists on disk at package time", so the tree holds the manifest together
with the declared shell script. -/
def projectTreeFiles : List String :=
  ["setup.py", "scripts/vgpu-name.sh"]

/-- C1: whatever package discovery returns, the `setup` call receives
`name = "vgpu_unlock"`, `version = "1.0.0"`,
`description = "vGPU unlock script for consumer GPUs"`, and
`author = "D"` — the four fixed metadata literals. -/
theorem setup_metadata_literals (discovered : List String) :
    kwargLookup (setupKwargs discovered) "name" =
      some (SetupValue.str "vgpu_unlock") ∧
    kwargLookup (setupKwargs discovered) "version" =
      some (SetupValue.str "1.0.0") ∧
    kwargLookup (setupKwargs discovered) "description" =
      some (SetupValue.str "vGPU unlock script for consumer GPUs") ∧
    kwargLookup (setupKwargs discovered) "author" =
      some (SetupValue.str "D") :=
  ⟨rfl, rfl, rfl, rfl⟩

/-- C1 witness: the metadata literals at a concrete discovery result. -/
theorem setup_metadata_literals_witness :
    kwargLookup (setupKwargs []) "name" = some (SetupValue.str "vgpu_unlock") :=
  (setup_metadata_literals []).1

/-- C2: the `install_requires` argument is exactly the one-element list
`["frida"]`, and no other entry of the argument list declares a runtime
dependency: filtering the kwargs for the `install_requires` key yields
exactly that one value. -/
theorem install_requires_exactly_frida (discovered : List String) :
    kwargLookup (setupKwargs discovered) "install_requires" =
      some (SetupValue.strList ["frida"]) ∧
    ((setupKwargs discovered).filter (fun p => p.1 == "install_requires")).map
        Prod.snd = [SetupValue.strList ["frida"]] :=
  ⟨rfl, rfl⟩

/-- C3: the `scripts` argument is exactly the one-element list
`["scripts/vgpu-name.sh"]`, so exactly one external executable entry
point is registered. -/
theorem scripts_exactly_one (discovered : List String) :
    kwargLookup (setupKwargs discovered) "scripts" =
      some (SetupValue.strList ["scripts/vgpu-name.sh"]) ∧
    ((setupKwargs discovered).filter (fun p => p.1 == "scripts")).map
        Prod.snd = [SetupValue.strList ["scripts/vgpu-name.sh"]] :=
  ⟨rfl, rfl⟩

/-- C4: the declared version string is `"1.0.0"`, and it has the
`major.minor.patch` form: three non-empty decimal components separated by
dots. -/
theorem version_semver_format (discovered : List String) :
    kwargLookup (setupKwargs discovered) "version" =
      some (SetupValue.str "1.0.0") ∧
    isSemverFormat "1.0.0" = true :=
  ⟨rfl, by decide⟩

/-- C5: the classifiers argument is exactly the MIT license tag followed
by the Python 3, 3.9, 3.10 and 3.11 language-version tags: it holds one
license classifier, four Python version classifiers, and nothing of any
other kind. -/
theorem classifiers_license_and_python_only (discovered : List String) :
    kwargLookup (setupKwargs discovered) "classifiers" =
      some (SetupValue.strList manifestClassifiers) ∧
    manifestClassifiers.head? = some "License :: OSI Approved :: MIT License" ∧
    manifestClassifiers.countP (fun c => isLicenseClassifier c) = 1 ∧
    (manifestClassifiers.drop 1).all (fun c => isPythonVersionClassifier c) = true ∧
    manifestClassifiers.countP (fun c => isPythonVersionClassifier c) = 4 ∧
    manifestClassifiers.all
      (fun c => isLicenseClassifier c || isPythonVersionClassifier c) = true :=
  ⟨rfl, rfl, by decide, by decide, by decide, by decide⟩

/-- C6: the `packages` value is not a fixed literal: it equals whatever
list the discovery call returned, and two evaluations with different
discovery results pass different `packages` values. -/
theorem packages_auto_discovered :
    (∀ discovered : List String,
      kwargLookup (setupKwargs discovered) "packages" =
        some (SetupValue.strList discovered)) ∧
    kwargLookup (setupKwargs ["vgpu_unlock"]) "packages" ≠
      kwargLookup (setupKwargs []) "packages" :=
  ⟨fun _ => rfl, by decide⟩

/-- C7: evaluation is deterministic for every field except `packages`:
across any two evaluations of the manifest, the values received for
`name`, `version`, `description`, `author`, `scripts`,
`install_requires` and `classifiers` coincide. -/
theorem manifest_fields_deterministic (d1 d2 : List String) :
    kwargLookup (setupKwargs d1) "name" = kwargLookup (setupKwargs d2) "name" ∧
    kwargLookup (setupKwargs d1) "version" =
      kwargLookup (setupKwargs d2) "version" ∧
    kwargLookup (setupKwargs d1) "description" =
      kwargLookup (setupKwargs d2) "description" ∧
    kwargLookup (setupKwargs d1) "author" =
      kwargLookup (setupKwargs d2) "author" ∧
    kwargLookup (setupKwargs d1) "scripts" =
      kwargLookup (setupKwargs d2) "scripts" ∧
    kwargLookup (setupKwargs d1) "install_requires" =
      kwargLookup (setupKwargs d2) "install_requires" ∧
    kwargLookup (setupKwargs d1) "classifiers" =
      kwargLookup (setupKwargs d2) "classifiers" :=
  ⟨rfl, rfl, rfl, rfl, rfl, rfl, rfl⟩

/-- C8: every path the manifest declares under `scripts` is a file of the
project tree at package time; in particular `scripts/vgpu-name.sh` is. -/
theorem declared_script_in_tree (discovered : List String) :
    kwargLookup (setupKwargs discovered) "scripts" =
      some (SetupValue.strList ["scripts/vgpu-name.sh"]) ∧
    (["scripts/vgpu-name.sh"] : List String).all
      (fun s => projectTreeFiles.contains s) = true :=
  ⟨rfl, by decide⟩

/-- C9: the sole dependency specifier `"frida"` carries no version
constraint, extras or marker, so under any semantics for non-empty
constraints, every released version satisfies it. -/
theorem frida_unconstrained (discovered : List String)
    (constraintMatches : List Char → String → Bool) (version : String) :
    kwargLookup (setupKwargs discovered) "install_requires" =
      some (SetupValue.strList ["frida"]) ∧
    (["frida"] : List String).all (fun dep => !(hasVersionConstraint dep)) = true ∧
    (["frida"] : List String).all
      (fun dep => specifierSatisfiedBy constraintMatches dep version) = true :=
  ⟨rfl, by decide, rfl⟩

/-- C10: the `setup` call receives exactly the eight keywords `name`,
`version`, `description`, `author`, `packages`, `scripts`,
`install_requires`, `classifiers`, in that order, and no others — in
particular no `python_requires` keyword is passed. -/
theorem setup_kwargs_exact (discovered : List String) :
    (setupKwargs discovered).map Prod.fst =
      ["name", "version", "description", "author", "packages", "scripts",
       "install_requires", "classifiers"] ∧
    kwargLookup (setupKwargs discovered) "python_requires" = none :=
  ⟨rfl, rfl⟩
